import Mathlib

/-!
Verification development for the PSD (pose-space deformation) corrector.

The Python sources under `psd_corrector/` are shallowly embedded here:
* numeric samples (Euler degrees, locations, scales) become exact rationals,
  so every guard in the source (`< 1e-6`, `> 0.001`, ...) is an exact
  comparison on `ℚ`;
* `mathutils.Vector` values become `Vec3`;
* a Python value that may be `None` (an unsampled channel, a value for which
  `float(...)` raises) becomes an `Option`;
* a length comparison `v.length < tau` (with `tau ≥ 0`) is translated to the
  equivalent exact comparison `v.dot v < tau ^ 2`, avoiding square roots;
* quaternion code (`_swing_twist_decompose`) is embedded over `Quaternion ℝ`.
-/

namespace PSD

/-- A 3-component vector, modelling the `mathutils.Vector` triples used for
Euler degrees, locations and scales. -/
structure Vec3 where
  vx : ℚ
  vy : ℚ
  vz : ℚ
deriving DecidableEq, Repr

/-- Componentwise vector difference, `a - b` on `mathutils.Vector`. -/
def Vec3.sub (a b : Vec3) : Vec3 :=
  ⟨a.vx - b.vx, a.vy - b.vy, a.vz - b.vz⟩

/-- Dot product, `a.dot(b)` on `mathutils.Vector`. -/
def Vec3.dot (a b : Vec3) : ℚ :=
  a.vx * b.vx + a.vy * b.vy + a.vz * b.vz

/-- Componentwise vector sum. -/
def Vec3.add (a b : Vec3) : Vec3 :=
  ⟨a.vx + b.vx, a.vy + b.vy, a.vz + b.vz⟩

/-- Scalar multiple of a vector. -/
def Vec3.smul (k : ℚ) (a : Vec3) : Vec3 :=
  ⟨k * a.vx, k * a.vy, k * a.vz⟩

/-- The clamp `max(0.0, min(1.0, w))` that the weight code applies. -/
def clamp01 (w : ℚ) : ℚ :=
  max 0 (min 1 w)

/-- The fields of a saved entry read by `compute_rotation_weight`
(`math_utils.py` 124-171).  Rotations are XYZ Euler angles in degrees. -/
structure RotEntry where
  cone_enabled : Bool
  cone_angle : ℚ
  rest_rot : Vec3
  pose_rot : Vec3
deriving DecidableEq, Repr

/-- Function `compute_rotation_weight` (`math_utils.py` 124-171), the value written to
the result store for a rotation-channel entry.

* `cur` is `bone_to_cur_rot.get(bn)`; `none` models an unsampled bone.
* For the cone branch, `angleDeg` is the angular separation
  `degrees(acos(clamp(dir_center.dot(dir_cur), -1, 1)))` computed by lines
  133-137 from the two `_euler_deg_to_dir` directions; the transcendental
  direction geometry is abstracted into this one input (its values lie in
  `[0, 180]`, but none of the theorems below need that).
* In the linear branch, `cur_rel.length < 1e-3` is translated to the exact
  equivalent `cur_rel.dot cur_rel < (1e-3)^2 = 1/1000000`.
* `math.isnan(w)` can never hold for an exact rational, so the NaN guard of
  line 164 is dead here; its effect on a genuine NaN is modelled separately by
  `finalize_rotation` below. -/
def compute_rotation_weight (e : RotEntry) (angleDeg : ℚ) (cur : Option Vec3) : ℚ :=
  match cur with
  | none => 0
  | some c =>
    let w :=
      if e.cone_enabled then
        if angleDeg ≤ e.cone_angle then
          if 0 < e.cone_angle then 1 - angleDeg / e.cone_angle else 1
        else 0
      else
        let pose_dir := e.pose_rot.sub e.rest_rot
        let cur_rel := c.sub e.rest_rot
        let denom := pose_dir.dot pose_dir
        if denom < 1 / 1000000 then
          if cur_rel.dot cur_rel < 1 / 1000000 then 1 else 0
        else
          let w0 := cur_rel.dot pose_dir / denom
          if w0 < 0 then 0
          else if 2 < w0 then 0
          else if 1 < w0 then 2 - w0
          else w0
    clamp01 w

/-- The fields of a saved entry read by `compute_location_weight`
(`math_utils.py` 177-225). -/
structure LocEntry where
  loc_enabled : Bool
  loc_radius : ℚ
  rest_loc : Vec3
  pose_loc : Vec3
deriving DecidableEq, Repr

/-- Function `compute_location_weight` (`math_utils.py` 177-225), the value written to
the result store for a location-channel entry.  `(cur_loc - center).length
< 1e-6` and `(cur_loc - rest_vec).length < 1e-6` are translated to the exact
squared comparisons against `(1e-6)^2 = 1/10^12`; `t` is an exact rational so
the `isnan(t)` guard of line 206 is dead (see `finalize_location` for the NaN
path). -/
def compute_location_weight (e : LocEntry) (cur : Option Vec3) : ℚ :=
  match cur with
  | none => 0
  | some c =>
    let w :=
      if e.loc_enabled then
        let center := e.pose_loc
        if e.loc_radius ≤ 0 then
          if (c.sub center).dot (c.sub center) < 1 / 10 ^ 12 then 1 else 0
        else
          let d := c.sub center
          let wx := max 0 (1 - |d.vx| / e.loc_radius)
          let wy := max 0 (1 - |d.vy| / e.loc_radius)
          let wz := max 0 (1 - |d.vz| / e.loc_radius)
          wx * wy * wz
      else
        let direction := e.pose_loc.sub e.rest_loc
        let len2 := direction.dot direction
        if len2 < 1 / 10 ^ 12 then
          if (c.sub e.rest_loc).dot (c.sub e.rest_loc) < 1 / 10 ^ 12 then 1 else 0
        else
          let t := (c.sub e.rest_loc).dot direction / len2
          let w0 := if t < 0 ∨ 2 < t then 0 else if 1 < t then 2 - t else t
          clamp01 w0
    clamp01 w

/-- The fields of a saved entry read by `compute_scale_weight`
(`math_utils.py` 228-262). -/
structure ScaEntry where
  rest_sca : Vec3
  pose_sca : Vec3
deriving DecidableEq, Repr

/-- Function `compute_scale_weight` (`math_utils.py` 228-262).  Same translation
conventions as `compute_location_weight`; note that unlike the rotation and
location functions there is no final clamp outside the branches. -/
def compute_scale_weight (e : ScaEntry) (cur : Option Vec3) : ℚ :=
  match cur with
  | none => 0
  | some c =>
    let direction := e.pose_sca.sub e.rest_sca
    let len2 := direction.dot direction
    if len2 < 1 / 10 ^ 12 then
      if (c.sub e.rest_sca).dot (c.sub e.rest_sca) < 1 / 10 ^ 12 then 1 else 0
    else
      let t := (c.sub e.rest_sca).dot direction / len2
      clamp01 (if t < 0 ∨ 2 < t then 0 else if 1 < t then 2 - t else t)

/-- The falloff selector of a trigger entry (`props` collection). -/
inductive Falloff where
  | LINEAR
  | SMOOTH
deriving DecidableEq, Repr

/-- The per-trigger weight computed inside `compute_triggers`
(`math_utils.py` 288-295): `d` is the world-space distance between the two
bone heads (a length, hence nonnegative in any real run, though the bounds
below need no such hypothesis) and `radius` is `trig.radius`. -/
def trigger_weight (falloff : Falloff) (radius d : ℚ) : ℚ :=
  let r := max (1 / 1000000) radius
  match falloff with
  | .SMOOTH =>
    let t := min (max (d / r) 0) 1
    1 - (3 * t * t - 2 * t * t * t)
  | .LINEAR => max 0 (min 1 (1 - d / r))

/-- Lines 164-166 of `math_utils.py` lifted to a maybe-NaN value: `none`
models a NaN produced upstream; the `isnan` guard coerces it to `0.0` and the
clamp then runs, so the value stored for a rotation entry is this. -/
def finalize_rotation (w : Option ℚ) : ℚ :=
  clamp01 (match w with | none => 0 | some v => v)

/-- Lines 215-217 of `math_utils.py` lifted to a maybe-NaN value. -/
def finalize_location (w : Option ℚ) : ℚ :=
  clamp01 (match w with | none => 0 | some v => v)

/-- Lines 253-254 of `math_utils.py` lifted to a maybe-NaN value (the scale
channel has no clamp after its NaN guard). -/
def finalize_scale (w : Option ℚ) : ℚ :=
  match w with | none => 0 | some v => v

/-- The triangular envelope exactly as the spec words it (section 4.2,
policy 1): `t<0 → 0`; `t in [0,1] → t`; `t in (1,2] → 2-t`; `t>2 → 0`.
This is a spec-side definition, to be compared with the code-side weight
functions above. -/
def triangularEnvelope (t : ℚ) : ℚ :=
  if t < 0 then 0
  else if t ≤ 1 then t
  else if t ≤ 2 then 2 - t
  else 0

/-- The projection parameter `t = dot(cur - rest, pose - rest) /
dot(pose - rest, pose - rest)` of the linear vector-projection policy. -/
def tParam (rest pose cur : Vec3) : ℚ :=
  (cur.sub rest).dot (pose.sub rest) / (pose.sub rest).dot (pose.sub rest)

/-- The location weight as claim C3 reads it: the degenerate branch is taken
exactly when `dot(pose_dir, pose_dir) < 1e-6` (rather than the `1e-12` the
code uses for this channel), yielding `1.0` iff the distance to rest is below
`1e-6` (squared comparison against `1e-12`).  Spec-side definition, for
comparison with `compute_location_weight`. -/
def locationWeightClaimC3 (e : LocEntry) (cur : Vec3) : ℚ :=
  let direction := e.pose_loc.sub e.rest_loc
  let len2 := direction.dot direction
  if len2 < 1 / 1000000 then
    if (cur.sub e.rest_loc).dot (cur.sub e.rest_loc) < 1 / 10 ^ 12 then 1 else 0
  else
    clamp01 (triangularEnvelope (tParam e.rest_loc e.pose_loc cur))

/-! ### Result keys (`utils.py`) -/

/-- The ASCII whitespace class matched by Python's `str.strip()` and by the
regex class backslash-s on the names occurring in this development. -/
def isPyWs (c : Char) : Bool :=
  c = ' ' || c = '\t' || c = '\n' || c = '\r' || c = '\x0b' || c = '\x0c'

/-- Python `str.strip()`: drop leading and trailing whitespace. -/
def pyStrip (l : List Char) : List Char :=
  ((l.dropWhile isPyWs).reverse.dropWhile isPyWs).reverse

/-- Model of the `re.sub` of one-or-more whitespace with a single underscore: each maximal
whitespace run produces one `'_'`.  The accumulator flag records whether the
previous character was part of a run already replaced. -/
def collapseWsAux : Bool → List Char → List Char
  | _, [] => []
  | prevWs, c :: cs =>
    if isPyWs c then
      if prevWs then collapseWsAux true cs
      else '_' :: collapseWsAux true cs
    else c :: collapseWsAux false cs

/-- A character allowed through by the class `[0-9A-Za-z_\-]` of
`_safe_name`; every other character is replaced by `'_'`. -/
def safeChar (c : Char) : Char :=
  if c.isAlpha || c.isDigit || c = '_' || c = '-' then c else '_'

/-- Function `_safe_name` (`utils.py` 277-281): trim, collapse whitespace runs to
`'_'`, replace every remaining character outside `[0-9A-Za-z_\-]` by `'_'`. -/
def safe_name (s : String) : String :=
  ⟨(collapseWsAux false (pyStrip s.data)).map safeChar⟩

/-- Result-kind string, `PREFIX_RESULT` in `utils.py`. -/
def PREFIX_RESULT : String := "psd_rot_"

/-- Result-kind string, `PREFIX_RESULT_LOC` in `utils.py`. -/
def PREFIX_RESULT_LOC : String := "psd_loc_"

/-- Result-kind string, `PREFIX_RESULT_SCA` in `utils.py`. -/
def PREFIX_RESULT_SCA : String := "psd_sca_"

/-- The result-key composition used at every store site, e.g.
`math_utils.py` line 170. -/
def resultKey (pre bn en : String) : String :=
  pre ++ safe_name bn ++ "_" ++ safe_name en

/-! ### In-memory result store (`utils.py` `psd_set_result_cache_only`) -/

/-- One owner's tier of the in-memory result store `_psd_results_cache`,
as an association list (`lookup` returns the newest binding). -/
abbrev ResultStore := List (String × ℚ)

/-- Function `psd_set_result_cache_only` (`utils.py` 216-253) acting on one owner's
cache dictionary.  `value = none` models an argument on which `float(value)`
raises (the function then returns `False` without touching the store).
Returns the updated store and the boolean result. -/
def psd_set_result_cache_only (cache : ResultStore) (key : String) (value : Option ℚ) :
    ResultStore × Bool :=
  match value with
  | none => (cache, false)
  | some fw =>
    match cache.lookup key with
    | none => ((key, fw) :: cache, true)
    | some prev =>
      if 1 / 1000 < |prev - fw| then ((key, fw) :: cache, true)
      else (cache, false)

/-! ### Expression drivers (`json_shape_driver.py`, `json_pose_driver.py`)

Both drivers resolve a list of variable bindings against the in-memory result
cache, evaluate a compiled arithmetic expression over the resulting namespace,
and post-process the value.  The Python `compile`/`eval` pair is represented
by a small arithmetic expression tree; evaluating an unbound name raises
`NameError` (modelled as `none`), any runtime failure likewise. -/

/-- One entry of a driver's `variables` list.  `dataPathKey` is
`json.loads(var["data_path"])[0]`; `none` models a `data_path` on which that
parse raises (the only way the drivers set `missing_var`). -/
structure Binding where
  name : String
  dataPathKey : Option String
deriving DecidableEq, Repr

/-- A compiled driver expression (the image of Python `compile(expr, _,
"eval")` for the arithmetic expressions the drivers evaluate). -/
inductive Expr where
  | lit (q : ℚ)
  | var (n : String)
  | add (a b : Expr)
  | sub (a b : Expr)
  | mul (a b : Expr)
  | neg (a : Expr)
deriving DecidableEq, Repr

/-- Evaluation of a compiled expression under `eval(compiled, safe_globals,
local_vars)`: a name absent from the namespace raises (`none`). -/
def Expr.evalIn (env : List (String × ℚ)) : Expr → Option ℚ
  | .lit q => some q
  | .var n => env.lookup n
  | .add a b => do pure ((← a.evalIn env) + (← b.evalIn env))
  | .sub a b => do pure ((← a.evalIn env) - (← b.evalIn env))
  | .mul a b => do pure ((← a.evalIn env) * (← b.evalIn env))
  | .neg a => do pure (-(← a.evalIn env))

/-- The variable namespace built by the drivers' resolution loops
(`json_shape_driver.py` 56-62, `json_pose_driver.py` 64-69): every binding
whose `data_path` parses contributes `local_vars[name] =
mem_cache.get(key, 0.0)` — an absent result key silently resolves to `0.0`. -/
def resolveEnv (mem : ResultStore) (vars : List Binding) : List (String × ℚ) :=
  vars.filterMap fun b =>
    match b.dataPathKey with
    | some k => some (b.name, (mem.lookup k).getD 0)
    | none => none

/-- Flag `missing_var` after the drivers' resolution loops: set exactly when some
binding's `data_path` failed to parse. -/
def anyMissingVar (vars : List Binding) : Bool :=
  vars.any fun b => b.dataPathKey.isNone

/-- Method `ShapeDriver.process`, value computation for one target
(`json_shape_driver.py` 54-77): `0.0` when `missing_var`; otherwise the
evaluated expression clamped to `[0,1]`, with any evaluation error giving
`0.0`. -/
def shapeTargetValue (mem : ResultStore) (vars : List Binding) (e : Expr) : ℚ :=
  if anyMissingVar vars then 0
  else
    match e.evalIn (resolveEnv mem vars) with
    | some w => clamp01 w
    | none => 0

/-- Method `PoseDriver.process`, value computation for one constraint property
(`json_pose_driver.py` 62-83).  Line 76 clamps exactly as the shape driver
does: `w = max(0.0, min(1.0, float(w)))`. -/
def poseTargetValue (mem : ResultStore) (vars : List Binding) (e : Expr) : ℚ :=
  if anyMissingVar vars then 0
  else
    match e.evalIn (resolveEnv mem vars) with
    | some w => clamp01 w
    | none => 0

/-- The pose-driver value computation as claim C5 describes it: error-guarded
but NOT clamped.  Spec-side definition, for comparison with
`poseTargetValue`. -/
def poseTargetValueClaimC5 (mem : ResultStore) (vars : List Binding) (e : Expr) : ℚ :=
  if anyMissingVar vars then 0
  else
    match e.evalIn (resolveEnv mem vars) with
    | some w => w
    | none => 0

/-! ### Change-detection cache (`core.py`) -/

/-- One channel of a comparable sample: the tuple of rounded components, or
`none` when the channel was not sampled (`_to_tuple` returned `None`). -/
abbrev Channel := Option (List ℚ)

/-- A comparable sample `(loc_t, rot_t, sca_t)` produced by
`_psd_make_sample_from_maps`. -/
structure Sample where
  loc : Channel
  rot : Channel
  sca : Channel
deriving DecidableEq, Repr

/-- Python `round(x, 6)` idealised over exact rationals: scale by `10^6`,
round half to even (Python 3 banker's rounding), rescale. -/
def pyRound6 (q : ℚ) : ℚ :=
  let s := q * 1000000
  let f : ℤ := ⌊s⌋
  let r := s - (f : ℚ)
  let n : ℤ :=
    if r < 1 / 2 then f
    else if 1 / 2 < r then f + 1
    else if Even f then f else f + 1
  (n : ℚ) / 1000000

/-- Function `_psd_make_sample_from_maps` (`core.py` 227-248): build the comparable
sample for one bone from the three per-bone capture maps, rounding every
component to 6 decimals. -/
def _psd_make_sample_from_maps (rotv locv scav : Option (List ℚ)) : Sample :=
  ⟨locv.map (List.map pyRound6), rotv.map (List.map pyRound6),
    scav.map (List.map pyRound6)⟩

/-- The per-channel comparison inside `_psd_samples_equal`: both defined,
same length, every component pair within `eps`. -/
def channelsEqual (eps : ℚ) : Channel → Channel → Bool
  | some a, some b =>
    a.length = b.length && (a.zip b).all fun p => |p.1 - p.2| ≤ eps
  | _, _ => false

/-- Function `_psd_samples_equal` (`core.py` 251-268): compare the `(loc, rot, sca)`
triples channel by channel; any `None` sub-item makes them incomparable
(`False`). -/
def _psd_samples_equal (s1 s2 : Sample) (eps : ℚ) : Bool :=
  channelsEqual eps s1.loc s2.loc && channelsEqual eps s1.rot s2.rot &&
    channelsEqual eps s1.sca s2.sca

/-- Prop-level reading of the per-channel comparison of `_psd_samples_equal`:
both channels defined, lengths equal, every component pair within `eps`. -/
def ChannelClose (eps : ℚ) (c c' : Channel) : Prop :=
  ∃ a b, c = some a ∧ c' = some b ∧ a.length = b.length ∧
    ∀ p ∈ a.zip b, |p.1 - p.2| ≤ eps

/-- The fields of a `TriggerEntry` used by the compute pass. -/
structure TriggerEntry where
  name : String
  bone_name : String
  target_bone : String
  enabled : Bool
  radius : ℚ
  falloff : Falloff
deriving DecidableEq, Repr

/-- The `trigger_bones` set built at `core.py` 430-441: source and target
names of EVERY trigger (truthy, i.e. nonempty, names only — note the loop does
not consult `trig.enabled`). -/
def triggerBones : List TriggerEntry → List String
  | [] => []
  | t :: ts =>
    (if t.bone_name ≠ "" then [t.bone_name] else []) ++
      (if t.target_bone ≠ "" then [t.target_bone] else []) ++ triggerBones ts

/-- The per-bone skip decision of `_psd_compute_all` (`core.py` 410-445):
a bone is skipped this pass iff a cached sample exists, the new and cached
samples compare equal under `_psd_samples_equal` with `eps = 1e-5`, and the
bone is not named by any trigger. -/
def skipDecision (cache : Option Sample) (sample : Sample) (ts : List TriggerEntry)
    (bn : String) : Bool :=
  (match cache with
   | some last => _psd_samples_equal sample last (1 / 100000)
   | none => false) &&
    !(triggerBones ts).contains bn

/-- The skip decision as claim C6 describes it: identical, except that only
ENABLED triggers exempt their bones.  Spec-side definition, for comparison
with `skipDecision`. -/
def skipDecisionClaimC6 (cache : Option Sample) (sample : Sample)
    (ts : List TriggerEntry) (bn : String) : Bool :=
  (match cache with
   | some last => _psd_samples_equal sample last (1 / 100000)
   | none => false) &&
    !(triggerBones (ts.filter (·.enabled))).contains bn

/-! ### Compute-pass throttle (`core.py` 306-325) -/

/-- The minimum inter-run interval computed at `core.py` 307-318:
`0` while playback is active, else `1 / hz` where `hz` is
`int(getattr(sc, "psd_idle_hz", 10) or 10)` clamped to `[1, 240]`.
`idleHzProp = none` models a scene without the property (default 10); a stored
`0` is replaced by 10 by the `or 10`. -/
def minInterval (playing : Bool) (idleHzProp : Option ℤ) : ℚ :=
  if playing then 0
  else
    let raw := idleHzProp.getD 10
    let raw2 := if raw = 0 then 10 else raw
    let hz := if raw2 < 1 then 1 else if 240 < raw2 then 240 else raw2
    1 / (hz : ℚ)

/-- The throttle gate of `_psd_compute_all` (`core.py` 322-325): when the
interval is positive and `current_time - last_compute_time` is below it, the
invocation returns immediately (no recomputation, timestamp untouched);
otherwise the pass proceeds and `last_compute_time` is set to
`current_time`.  Returns (pass proceeds?, new `last_compute_time`). -/
def computeAllGate (lastComputeTime now : ℚ) (playing : Bool)
    (idleHzProp : Option ℤ) : Bool × ℚ :=
  let mi := minInterval playing idleHzProp
  if 0 < mi ∧ now - lastComputeTime < mi then (false, lastComputeTime)
  else (true, now)

/-! ### Swing-twist decomposition (`math_utils.py` 25-38)

The quaternion code is embedded over `Quaternion ℝ` (Mathlib's `ℍ[ℝ]`,
a division ring), and `mathutils` normalisation over `Real.sqrt`. -/

/-- A 3-vector over `ℝ`, for the twist axis. -/
structure V3R where
  rx : ℝ
  ry : ℝ
  rz : ℝ

/-- Model of `mathutils.Vector.length`. -/
noncomputable def V3R.length (v : V3R) : ℝ :=
  Real.sqrt (v.rx ^ 2 + v.ry ^ 2 + v.rz ^ 2)

/-- Model of `mathutils.Vector.normalized()`: divide each component by the length
(the code only calls this after the zero-length check). -/
noncomputable def V3R.normalized (v : V3R) : V3R :=
  ⟨v.rx / v.length, v.ry / v.length, v.rz / v.length⟩

open scoped Classical in
/-- Model of `mathutils.Quaternion.normalize()` guarded by the `try/except` of
`math_utils.py` 33-36: divide by the magnitude; on failure (the zero
quaternion) the handler substitutes the identity `Quaternion((1,0,0,0))`. -/
noncomputable def qnormalize (t : Quaternion ℝ) : Quaternion ℝ :=
  if t = 0 then 1 else ((Real.sqrt (Quaternion.normSq t) : ℝ)⁻¹ : ℝ) • t

/-- Function `_swing_twist_decompose` (`math_utils.py` 25-38): project the vector part
of `q` onto the normalised twist axis, normalise `(q.w, proj)` into the twist
quaternion, and set `swing = q @ twist.inverted()`.  A zero axis returns
`(q, identity)`. -/
noncomputable def _swing_twist_decompose (q : Quaternion ℝ) (twist_axis : V3R) :
    Quaternion ℝ × Quaternion ℝ :=
  if twist_axis.length = 0 then (q, 1)
  else
    let axis := twist_axis.normalized
    let d := q.imI * axis.rx + q.imJ * axis.ry + q.imK * axis.rz
    let twist := qnormalize ⟨q.re, axis.rx * d, axis.ry * d, axis.rz * d⟩
    (q * twist⁻¹, twist)

/-! ## Helper lemmas -/

theorem clamp01_nonneg (w : ℚ) : 0 ≤ clamp01 w := le_max_left 0 _

theorem clamp01_le_one (w : ℚ) : clamp01 w ≤ 1 := by
  unfold clamp01
  have h1 : min 1 w ≤ 1 := min_le_left 1 w
  exact max_le (by norm_num) h1

theorem clamp01_eq_self (w : ℚ) (h0 : 0 ≤ w) (h1 : w ≤ 1) : clamp01 w = w := by
  unfold clamp01
  rw [min_eq_right h1, max_eq_right h0]

theorem triangularEnvelope_nonneg (t : ℚ) : 0 ≤ triangularEnvelope t := by
  unfold triangularEnvelope
  split_ifs <;> linarith

theorem triangularEnvelope_le_one (t : ℚ) : triangularEnvelope t ≤ 1 := by
  unfold triangularEnvelope
  split_ifs <;> linarith

/-- The branch cascade used by the code (`w<0 → 0`, `w>2 → 0`, `w>1 → 2-w`,
else `w`), followed by the clamp, agrees with the envelope as worded by the
spec. -/
theorem clamp_code_envelope_eq (t : ℚ) :
    clamp01 (if t < 0 then 0 else if 2 < t then 0 else if 1 < t then 2 - t else t)
      = triangularEnvelope t := by
  unfold clamp01 triangularEnvelope
  split_ifs <;> try linarith
  all_goals
    rw [min_eq_right (by linarith), max_eq_right (by linarith)]

theorem qnormalize_ne_zero (t : Quaternion ℝ) : qnormalize t ≠ 0 := by
  unfold qnormalize
  split_ifs with h
  · exact one_ne_zero
  · rw [← Quaternion.coe_mul_eq_smul]
    have hpos : 0 < Quaternion.normSq t :=
      lt_of_le_of_ne Quaternion.normSq_nonneg
        (Ne.symm (Quaternion.normSq_ne_zero.mpr h))
    have hs : (Real.sqrt (Quaternion.normSq t))⁻¹ ≠ 0 :=
      inv_ne_zero (ne_of_gt (Real.sqrt_pos.mpr hpos))
    refine mul_ne_zero (fun hc => hs ?_) h
    exact Quaternion.coe_injective (hc.trans Quaternion.coe_zero.symm)

/-! ## Claims -/

/-- C9: for every quaternion `q` and twist axis, `_swing_twist_decompose`
returns `(swing, twist)` with `twist` the normalised projection of `q` onto
the axis and `swing = q * twist⁻¹`, and the composition `swing * twist` in
that order recovers `q` exactly (so in particular for every unit quaternion
and nonzero axis, including the axis-aligned 0°, 90°, 180°, 270° cases). -/
theorem C9_swing_twist_roundtrip (q : Quaternion ℝ) (twist_axis : V3R) :
    (_swing_twist_decompose q twist_axis).1 * (_swing_twist_decompose q twist_axis).2
      = q := by
  unfold _swing_twist_decompose
  split_ifs with h
  · exact mul_one q
  · dsimp only
    rw [mul_assoc, inv_mul_cancel₀ (qnormalize_ne_zero _), mul_one]

/-- C10: `psd_set_result_cache_only` leaves the store unchanged and returns
`False` when the value is not convertible to float, or when the key already
holds a previous value within `0.001` of the new one; it stores the value and
returns `True` exactly for a new key or a change greater than `0.001`. -/
theorem C10_set_result_cache_only_threshold (cache : ResultStore) (key : String)
    (v : ℚ) :
    psd_set_result_cache_only cache key none = (cache, false) ∧
    (∀ p, cache.lookup key = some p → |p - v| ≤ 1 / 1000 →
      psd_set_result_cache_only cache key (some v) = (cache, false)) ∧
    (cache.lookup key = none →
      psd_set_result_cache_only cache key (some v) = ((key, v) :: cache, true) ∧
        ((key, v) :: cache).lookup key = some v) ∧
    (∀ p, cache.lookup key = some p → 1 / 1000 < |p - v| →
      psd_set_result_cache_only cache key (some v) = ((key, v) :: cache, true) ∧
        ((key, v) :: cache).lookup key = some v) := by
  refine ⟨rfl, ?_, ?_, ?_⟩
  · intro p hp hle
    simp only [psd_set_result_cache_only, hp]
    rw [if_neg (not_lt.mpr hle)]
  · intro hp
    simp [psd_set_result_cache_only, hp, List.lookup]
  · intro p hp hgt
    rw [one_div] at hgt
    simp [psd_set_result_cache_only, hp, hgt, List.lookup]

/-- Witness for C10 at a concrete input: inserting into an empty store writes
and returns `True`. -/
theorem C10_set_result_cache_only_threshold_witness :
    psd_set_result_cache_only [] "k" (some 1) = ([("k", 1)], true) ∧
      (("k", (1 : ℚ)) :: []).lookup "k" = some 1 :=
  (C10_set_result_cache_only_threshold [] "k" 1).2.2.1 rfl

theorem one_div_int_bounds (n : ℤ) (h1 : 1 ≤ n) (h2 : n ≤ 240) :
    1 / 240 ≤ 1 / (n : ℚ) ∧ 1 / (n : ℚ) ≤ 1 := by
  have hn : (1 : ℚ) ≤ (n : ℚ) := by exact_mod_cast h1
  have hn2 : (n : ℚ) ≤ 240 := by exact_mod_cast h2
  constructor
  · apply one_div_le_one_div_of_le <;> linarith
  · rw [div_le_one (by linarith)]
    linarith

/-- C8: when the time since the last run is below the minimum interval — `0`
(no throttle) while playback is active, else `1/idle_hz` with the rate
clamped to `[1, 240]` — `_psd_compute_all` returns without recomputing and
without updating the last-run timestamp, so two passes never start closer
together than the interval in effect. -/
theorem C8_throttle_gate (last now : ℚ) (playing : Bool) (hzp : Option ℤ)
    (hmi : 0 < minInterval playing hzp)
    (hlt : now - last < minInterval playing hzp) :
    computeAllGate last now playing hzp = (false, last) ∧
    (∀ hzp2, minInterval true hzp2 = 0) ∧
    (∀ hzp2, 1 / 240 ≤ minInterval false hzp2 ∧ minInterval false hzp2 ≤ 1) ∧
    (∀ t1 t2 l0, computeAllGate l0 t1 playing hzp = (true, t1) →
      t2 - t1 < minInterval playing hzp →
      computeAllGate t1 t2 playing hzp = (false, t1)) := by
  refine ⟨?_, ?_, ?_, ?_⟩
  · unfold computeAllGate
    rw [if_pos ⟨hmi, hlt⟩]
  · intro hzp2
    simp [minInterval]
  · intro hzp2
    dsimp only [minInterval]
    rw [if_neg Bool.false_ne_true]
    refine one_div_int_bounds _ ?_ ?_ <;>
      rcases hzp2 with _ | n <;> dsimp only [Option.getD] <;> split_ifs <;> omega
  · intro t1 t2 l0 _ h2
    unfold computeAllGate
    rw [if_pos ⟨hmi, h2⟩]

/-- Witness for C8 at a concrete input: idle at 10 Hz, a second invocation
1/20 s after the last run is throttled and the timestamp is unchanged. -/
theorem C8_throttle_gate_witness :
    computeAllGate 0 (1 / 20) false (some 10) = (false, 0) :=
  (C8_throttle_gate 0 (1 / 20) false (some 10) (by norm_num [minInterval])
    (by norm_num [minInterval])).1

/-- C2: for every non-direct-channel policy (linear projection, cone angular
falloff, location axis-falloff, proximity trigger) and every input sample,
the value written to the result store by the weight functions lies in
`[0,1]`; and at the isnan guards a NaN intermediate (the `none` of the lifted
finalisers) is coerced to `0.0` before being stored. -/
theorem C2_clamp_invariant :
    (∀ e a cur, 0 ≤ compute_rotation_weight e a cur ∧
      compute_rotation_weight e a cur ≤ 1) ∧
    (∀ e cur, 0 ≤ compute_location_weight e cur ∧
      compute_location_weight e cur ≤ 1) ∧
    (∀ e cur, 0 ≤ compute_scale_weight e cur ∧ compute_scale_weight e cur ≤ 1) ∧
    (∀ f r d, 0 ≤ trigger_weight f r d ∧ trigger_weight f r d ≤ 1) ∧
    (∀ w, 0 ≤ finalize_rotation w ∧ finalize_rotation w ≤ 1) ∧
    finalize_rotation none = 0 ∧ finalize_location none = 0 ∧
    finalize_scale none = 0 := by
  refine ⟨?_, ?_, ?_, ?_, ?_, by norm_num [finalize_rotation, clamp01],
    by norm_num [finalize_location, clamp01], rfl⟩
  · rintro e a (_ | c)
    · exact ⟨le_refl 0, show (0 : ℚ) ≤ 1 by norm_num⟩
    · exact ⟨clamp01_nonneg _, clamp01_le_one _⟩
  · rintro e (_ | c)
    · exact ⟨le_refl 0, show (0 : ℚ) ≤ 1 by norm_num⟩
    · exact ⟨clamp01_nonneg _, clamp01_le_one _⟩
  · rintro e (_ | c)
    · exact ⟨le_refl 0, show (0 : ℚ) ≤ 1 by norm_num⟩
    · dsimp only [compute_scale_weight]
      split_ifs <;>
        first
          | exact ⟨clamp01_nonneg _, clamp01_le_one _⟩
          | exact ⟨by norm_num, by norm_num⟩
  · rintro (_ | _) r d
    · exact ⟨le_max_left 0 _, max_le (by norm_num) (min_le_left 1 _)⟩
    · dsimp only [trigger_weight]
      set t := min (max (d / max (1 / 1000000) r) 0) 1 with ht
      have ht0 : 0 ≤ t := le_min (le_max_right _ 0) (by norm_num)
      have ht1 : t ≤ 1 := min_le_right _ 1
      constructor
      · nlinarith [mul_nonneg (sq_nonneg (1 - t)) (by linarith : (0:ℚ) ≤ 1 + 2 * t)]
      · nlinarith [mul_nonneg (sq_nonneg t) (by linarith : (0:ℚ) ≤ 3 - 2 * t)]
  · intro w
    exact ⟨clamp01_nonneg _, clamp01_le_one _⟩

/-- C4 (refuting the uniqueness invariant): `_safe_name` maps the distinct
entry names `"a b"` and `"a_b"` to the same sanitized string, so two entries
with distinct (kind, joint, entry) triples produce the same result key; the
code disagrees with the claimed injectivity at this input. -/
theorem C4_result_key_collision :
    resultKey PREFIX_RESULT "Bone" "a b" = resultKey PREFIX_RESULT "Bone" "a_b" ∧
    ("a b" : String) ≠ "a_b" ∧
    resultKey PREFIX_RESULT "Bone" "a b" = "psd_rot_Bone_a_b" := by
  refine ⟨?_, ?_, ?_⟩ <;> decide

/-- C5 counterexample: an expression evaluating to `2.0` with no variables is
stored by `PoseDriver.process` as `1.0` (line 76 clamps), whereas the claim's
un-clamped pose-driver semantics would store `2.0`. -/
theorem C5_counterexample :
    poseTargetValue [] [] (.lit 2) = 1 ∧
    poseTargetValueClaimC5 [] [] (.lit 2) = 2 ∧
    (1 : ℚ) ≠ 2 := by
  refine ⟨by decide, by decide, by norm_num⟩

/-- C5 (amended): `ShapeDriver.process` clamps the evaluated value to `[0,1]`
before applying it, and `PoseDriver.process` applies the identical
clamped-and-error-guarded value to its constraint-property target — the two
post-processing pipelines coincide and both outputs always lie in `[0,1]`. -/
theorem C5_both_drivers_clamp (mem : ResultStore) (vars : List Binding)
    (e : Expr) :
    poseTargetValue mem vars e = shapeTargetValue mem vars e ∧
    0 ≤ shapeTargetValue mem vars e ∧ shapeTargetValue mem vars e ≤ 1 ∧
    0 ≤ poseTargetValue mem vars e ∧ poseTargetValue mem vars e ≤ 1 := by
  have hb : 0 ≤ shapeTargetValue mem vars e ∧ shapeTargetValue mem vars e ≤ 1 := by
    dsimp only [shapeTargetValue]
    split_ifs
    · exact ⟨le_refl 0, by norm_num⟩
    · rcases Expr.evalIn (resolveEnv mem vars) e with _ | w
      · exact ⟨le_refl 0, by norm_num⟩
      · exact ⟨clamp01_nonneg _, clamp01_le_one _⟩
  exact ⟨rfl, hb.1, hb.2, hb.1, hb.2⟩

/-- C7 counterexample: a shape-driver target with one binding whose result
key is absent from the store evaluates `1 - x` with `x` defaulted to `0.0`
and outputs `1.0` — not the forced `0.0` the claim states (the pose driver
behaves identically). -/
theorem C7_counterexample :
    List.lookup "psd_rot_Bone_entry" ([] : ResultStore) = none ∧
    shapeTargetValue [] [⟨"x", some "psd_rot_Bone_entry"⟩]
      (.sub (.lit 1) (.var "x")) = 1 ∧
    poseTargetValue [] [⟨"x", some "psd_rot_Bone_entry"⟩]
      (.sub (.lit 1) (.var "x")) = 1 ∧
    (1 : ℚ) ≠ 0 := by
  refine ⟨rfl, ?_, ?_, by norm_num⟩ <;>
    norm_num [shapeTargetValue, poseTargetValue, anyMissingVar, resolveEnv,
      Expr.evalIn, List.lookup, clamp01]

/-- C7 (amended): a binding whose result key is absent from the store
resolves that variable to `0.0` and evaluation proceeds normally (nothing
raises); the drivers force the output to `0.0` only when some binding's
`data_path` fails to parse (and, separately, when evaluation itself
errors). -/
theorem C7_missing_key_defaults_zero (mem : ResultStore) (vars : List Binding)
    (e : Expr) (n k : String) (hk : mem.lookup k = none) :
    resolveEnv mem (⟨n, some k⟩ :: vars) = (n, 0) :: resolveEnv mem vars ∧
    ((∃ b ∈ vars, b.dataPathKey = none) →
      shapeTargetValue mem vars e = 0 ∧ poseTargetValue mem vars e = 0) ∧
    (anyMissingVar vars = false → Expr.evalIn (resolveEnv mem vars) e = none →
      shapeTargetValue mem vars e = 0 ∧ poseTargetValue mem vars e = 0) := by
  refine ⟨?_, ?_, ?_⟩
  · simp [resolveEnv, hk]
  · rintro ⟨b, hb, hbn⟩
    have hmv : anyMissingVar vars = true := by
      simp only [anyMissingVar, List.any_eq_true]
      exact ⟨b, hb, by simp [hbn]⟩
    constructor <;> simp [shapeTargetValue, poseTargetValue, hmv]
  · intro hmv hev
    constructor <;> simp [shapeTargetValue, poseTargetValue, hmv, hev]

/-- Witness for C7 at a concrete input: one binding bound to a key absent
from an empty store resolves to the variable value `0.0`. -/
theorem C7_missing_key_defaults_zero_witness :
    resolveEnv [] [⟨"x", some "psd_rot_Bone_entry"⟩]
      = [("x", (0 : ℚ))] :=
  (C7_missing_key_defaults_zero [] [] (.lit 1) "x" "psd_rot_Bone_entry" rfl).1

theorem code_env_or_eq (t : ℚ) :
    (if t < 0 ∨ 2 < t then (0 : ℚ) else if 1 < t then 2 - t else t)
      = (if t < 0 then 0 else if 2 < t then 0 else if 1 < t then 2 - t else t) := by
  by_cases h0 : t < 0 <;> by_cases h2 : 2 < t <;> simp [h0, h2]

/-- The location/scale variant of the branch cascade (`t < 0 or t > 2` joined
in one condition) also agrees with the spec's envelope after the clamp. -/
theorem clamp_code_envelope_eq_or (t : ℚ) :
    clamp01 (if t < 0 ∨ 2 < t then 0 else if 1 < t then 2 - t else t)
      = triangularEnvelope t := by
  rw [code_env_or_eq]
  exact clamp_code_envelope_eq t

theorem clamp01_envelope (t : ℚ) :
    clamp01 (triangularEnvelope t) = triangularEnvelope t :=
  clamp01_eq_self _ (triangularEnvelope_nonneg t) (triangularEnvelope_le_one t)

theorem clamp01_if01 (c : Prop) [Decidable c] :
    clamp01 (if c then (1 : ℚ) else 0) = if c then 1 else 0 := by
  split_ifs <;> norm_num [clamp01]

/-- C1: for every linear-vector-projection entry with non-degenerate authored
delta (`dot(pose_dir, pose_dir) ≥ 1e-6`), the stored rotation, location and
scale weights equal the triangular envelope of `t = dot(cur - rest,
pose - rest) / dot(pose - rest, pose - rest)`; in particular the weight is
`1.0` at the authored pose (`t = 1`) and `0.0` at twice the authored delta
(`t = 2`). -/
theorem C1_linear_projection_envelope (eR : RotEntry) (eL : LocEntry)
    (eS : ScaEntry) (angleDeg : ℚ) (curR curL curS : Vec3)
    (hcone : eR.cone_enabled = false) (hloc : eL.loc_enabled = false)
    (hdR : 1 / 1000000 ≤
      (eR.pose_rot.sub eR.rest_rot).dot (eR.pose_rot.sub eR.rest_rot))
    (hdL : 1 / 1000000 ≤
      (eL.pose_loc.sub eL.rest_loc).dot (eL.pose_loc.sub eL.rest_loc))
    (hdS : 1 / 1000000 ≤
      (eS.pose_sca.sub eS.rest_sca).dot (eS.pose_sca.sub eS.rest_sca)) :
    compute_rotation_weight eR angleDeg (some curR)
        = triangularEnvelope (tParam eR.rest_rot eR.pose_rot curR) ∧
    compute_location_weight eL (some curL)
        = triangularEnvelope (tParam eL.rest_loc eL.pose_loc curL) ∧
    compute_scale_weight eS (some curS)
        = triangularEnvelope (tParam eS.rest_sca eS.pose_sca curS) ∧
    compute_rotation_weight eR angleDeg (some eR.pose_rot) = 1 ∧
    compute_rotation_weight eR angleDeg
        (some (eR.rest_rot.add (Vec3.smul 2 (eR.pose_rot.sub eR.rest_rot))))
      = 0 := by
  have hdne : (eR.pose_rot.sub eR.rest_rot).dot (eR.pose_rot.sub eR.rest_rot) ≠ 0 :=
    ne_of_gt (lt_of_lt_of_le (by norm_num) hdR)
  have hrot : ∀ cur, compute_rotation_weight eR angleDeg (some cur)
      = triangularEnvelope (tParam eR.rest_rot eR.pose_rot cur) := by
    intro cur
    dsimp only [compute_rotation_weight]
    rw [hcone, if_neg Bool.false_ne_true, if_neg (not_lt.mpr hdR)]
    exact clamp_code_envelope_eq _
  refine ⟨hrot curR, ?_, ?_, ?_, ?_⟩
  · dsimp only [compute_location_weight]
    rw [hloc, if_neg Bool.false_ne_true,
      if_neg (not_lt.mpr (le_trans (by norm_num) hdL)),
      clamp_code_envelope_eq_or]
    exact clamp01_envelope _
  · dsimp only [compute_scale_weight]
    rw [if_neg (not_lt.mpr (le_trans (by norm_num) hdS))]
    exact clamp_code_envelope_eq_or _
  · rw [hrot eR.pose_rot]
    have h1 : tParam eR.rest_rot eR.pose_rot eR.pose_rot = 1 := by
      unfold tParam
      exact div_self hdne
    rw [h1]
    norm_num [triangularEnvelope]
  · rw [hrot _]
    have hnum : ((eR.rest_rot.add (Vec3.smul 2 (eR.pose_rot.sub eR.rest_rot))).sub
        eR.rest_rot).dot (eR.pose_rot.sub eR.rest_rot)
          = 2 * (eR.pose_rot.sub eR.rest_rot).dot (eR.pose_rot.sub eR.rest_rot) := by
      simp only [Vec3.add, Vec3.smul, Vec3.sub, Vec3.dot]
      ring
    have h2 : tParam eR.rest_rot eR.pose_rot
        (eR.rest_rot.add (Vec3.smul 2 (eR.pose_rot.sub eR.rest_rot))) = 2 := by
      unfold tParam
      rw [hnum, mul_div_assoc, div_self hdne, mul_one]
    rw [h2]
    norm_num [triangularEnvelope]

/-- Witness for C1 at a concrete input: rest `(0,0,0)`, pose `(1,0,0)`,
current `(1/2,0,0)` — the non-degeneracy hypotheses hold and the stored
rotation weight is the envelope value. -/
theorem C1_linear_projection_envelope_witness :
    compute_rotation_weight ⟨false, 0, ⟨0, 0, 0⟩, ⟨1, 0, 0⟩⟩ 0
        (some ⟨1 / 2, 0, 0⟩)
      = triangularEnvelope (tParam ⟨0, 0, 0⟩ ⟨1, 0, 0⟩ ⟨1 / 2, 0, 0⟩) :=
  (C1_linear_projection_envelope ⟨false, 0, ⟨0, 0, 0⟩, ⟨1, 0, 0⟩⟩
    ⟨false, 0, ⟨0, 0, 0⟩, ⟨1, 0, 0⟩⟩ ⟨⟨1, 1, 1⟩, ⟨2, 1, 1⟩⟩ 0
    ⟨1 / 2, 0, 0⟩ ⟨0, 0, 0⟩ ⟨0, 0, 0⟩ rfl rfl
    (by norm_num [Vec3.sub, Vec3.dot]) (by norm_num [Vec3.sub, Vec3.dot])
    (by norm_num [Vec3.sub, Vec3.dot])).1

/-- C3 counterexample: a location entry with `pose - rest = (1e-4, 0, 0)` has
`dot(pose_dir, pose_dir) = 1e-8`, which is below the claimed `1e-6` threshold
but not below the code's `1e-12`; at `current = pose` the claim's degenerate
branch yields `0.0` while the code evaluates the envelope and stores `1.0`. -/
theorem C3_counterexample :
    locationWeightClaimC3 ⟨false, 0, ⟨0, 0, 0⟩, ⟨1 / 10000, 0, 0⟩⟩
        ⟨1 / 10000, 0, 0⟩ = 0 ∧
    compute_location_weight ⟨false, 0, ⟨0, 0, 0⟩, ⟨1 / 10000, 0, 0⟩⟩
        (some ⟨1 / 10000, 0, 0⟩) = 1 := by
  constructor
  · norm_num [locationWeightClaimC3, Vec3.sub, Vec3.dot]
  · norm_num [compute_location_weight, Vec3.sub, Vec3.dot, clamp01]

/-- C3 (amended): the degenerate rest==pose branch is taken exactly when
`dot(pose_dir, pose_dir)` is below the channel threshold — `1e-6` for
rotation but `1e-12` for location and scale — and yields `1.0` iff the
distance from current to rest is below the channel tolerance (`1e-3` degrees
for rotation, `1e-6` units for location and scale; distances compared in
squared form). -/
theorem C3_degenerate_thresholds (eR : RotEntry) (eL : LocEntry) (eS : ScaEntry)
    (angleDeg : ℚ) (curR curL curS : Vec3)
    (hcone : eR.cone_enabled = false) (hloc : eL.loc_enabled = false)
    (hdR : (eR.pose_rot.sub eR.rest_rot).dot (eR.pose_rot.sub eR.rest_rot)
      < 1 / 1000000)
    (hdL : (eL.pose_loc.sub eL.rest_loc).dot (eL.pose_loc.sub eL.rest_loc)
      < 1 / 10 ^ 12)
    (hdS : (eS.pose_sca.sub eS.rest_sca).dot (eS.pose_sca.sub eS.rest_sca)
      < 1 / 10 ^ 12) :
    compute_rotation_weight eR angleDeg (some curR)
        = (if (curR.sub eR.rest_rot).dot (curR.sub eR.rest_rot) < 1 / 1000000
           then 1 else 0) ∧
    compute_location_weight eL (some curL)
        = (if (curL.sub eL.rest_loc).dot (curL.sub eL.rest_loc) < 1 / 10 ^ 12
           then 1 else 0) ∧
    compute_scale_weight eS (some curS)
        = (if (curS.sub eS.rest_sca).dot (curS.sub eS.rest_sca) < 1 / 10 ^ 12
           then 1 else 0) := by
  refine ⟨?_, ?_, ?_⟩
  · dsimp only [compute_rotation_weight]
    rw [hcone, if_neg Bool.false_ne_true, if_pos hdR, clamp01_if01]
  · dsimp only [compute_location_weight]
    rw [hloc, if_neg Bool.false_ne_true, if_pos hdL, clamp01_if01]
  · dsimp only [compute_scale_weight]
    rw [if_pos hdS]

/-- Witness for C3 at a concrete input: a rotation entry with rest == pose
and current == rest stores exactly `1.0`. -/
theorem C3_degenerate_thresholds_witness :
    compute_rotation_weight ⟨false, 0, ⟨0, 0, 0⟩, ⟨0, 0, 0⟩⟩ 0
        (some ⟨0, 0, 0⟩)
      = (if (Vec3.dot (Vec3.sub ⟨0, 0, 0⟩ ⟨0, 0, 0⟩) (Vec3.sub ⟨0, 0, 0⟩ ⟨0, 0, 0⟩))
            < 1 / 1000000 then 1 else 0) :=
  (C3_degenerate_thresholds ⟨false, 0, ⟨0, 0, 0⟩, ⟨0, 0, 0⟩⟩
    ⟨false, 0, ⟨0, 0, 0⟩, ⟨0, 0, 0⟩⟩ ⟨⟨1, 1, 1⟩, ⟨1, 1, 1⟩⟩ 0
    ⟨0, 0, 0⟩ ⟨0, 0, 0⟩ ⟨0, 0, 0⟩ rfl rfl
    (by norm_num [Vec3.sub, Vec3.dot]) (by norm_num [Vec3.sub, Vec3.dot])
    (by norm_num [Vec3.sub, Vec3.dot])).1

theorem channelsEqual_iff (eps : ℚ) (c c' : Channel) :
    channelsEqual eps c c' = true ↔ ChannelClose eps c c' := by
  cases c with
  | none => simp [channelsEqual, ChannelClose]
  | some a =>
    cases c' with
    | none => simp [channelsEqual, ChannelClose]
    | some b =>
      simp [channelsEqual, ChannelClose, List.all_eq_true]

theorem samples_equal_iff (s1 s2 : Sample) (eps : ℚ) :
    _psd_samples_equal s1 s2 eps = true ↔
      ChannelClose eps s1.loc s2.loc ∧ ChannelClose eps s1.rot s2.rot ∧
        ChannelClose eps s1.sca s2.sca := by
  unfold _psd_samples_equal
  simp [Bool.and_eq_true, channelsEqual_iff, and_assoc]

theorem mem_ite_singleton (c : Prop) [Decidable c] (x bn : String) :
    bn ∈ (if c then [x] else []) ↔ c ∧ bn = x := by
  split_ifs with h <;> simp [h]

theorem mem_triggerBones_iff (ts : List TriggerEntry) (bn : String)
    (hbn : bn ≠ "") :
    bn ∈ triggerBones ts ↔ ∃ t ∈ ts, t.bone_name = bn ∨ t.target_bone = bn := by
  induction ts with
  | nil => simp [triggerBones]
  | cons t ts ih =>
    rw [triggerBones]
    simp only [List.mem_append, mem_ite_singleton, ih]
    constructor
    · rintro ((⟨hc, rfl⟩ | ⟨hc, rfl⟩) | ⟨u, hu, h⟩)
      · exact ⟨t, List.mem_cons_self t ts, Or.inl rfl⟩
      · exact ⟨t, List.mem_cons_self t ts, Or.inr rfl⟩
      · exact ⟨u, List.mem_cons_of_mem t hu, h⟩
    · rintro ⟨u, hu, h⟩
      rcases List.mem_cons.mp hu with rfl | hu2
      · rcases h with h | h
        · exact Or.inl (Or.inl ⟨by rw [h]; exact hbn, h.symm⟩)
        · exact Or.inl (Or.inr ⟨by rw [h]; exact hbn, h.symm⟩)
      · exact Or.inr ⟨u, hu2, h⟩

/-- C6 counterexample: a bone whose sample is unchanged and which is
referenced (as source and target) only by a DISABLED trigger: the claim's
skip predicate (which exempts only enabled-trigger bones) says the bone is
skippable, but the compute pass — whose trigger-exemption loop at `core.py`
433-438 never consults `trig.enabled` — does not skip it. -/
theorem C6_counterexample :
    skipDecisionClaimC6 (some ⟨some [0, 0, 0], some [0, 0, 0], some [1, 1, 1]⟩)
        ⟨some [0, 0, 0], some [0, 0, 0], some [1, 1, 1]⟩
        [⟨"trig", "B", "B", false, 1, .LINEAR⟩] "B" = true ∧
    skipDecision (some ⟨some [0, 0, 0], some [0, 0, 0], some [1, 1, 1]⟩)
        ⟨some [0, 0, 0], some [0, 0, 0], some [1, 1, 1]⟩
        [⟨"trig", "B", "B", false, 1, .LINEAR⟩] "B" = false := by
  constructor <;>
    norm_num [skipDecisionClaimC6, skipDecision, _psd_samples_equal,
      channelsEqual, triggerBones, List.contains, List.elem]

/-- C6 (amended): a joint is skipped in a compute pass iff a previous cached
sample exists, current and cached samples are fully defined on all three
channels with matching lengths, every corresponding component differs by at
most `1e-5`, and the joint is not referenced as source or target by ANY
TriggerEntry — enabled or not (the code's exemption loop ignores
`trig.enabled`, so a joint referenced only by disabled triggers is still
never skipped). -/
theorem C6_skip_iff (cache : Option Sample) (sample : Sample)
    (ts : List TriggerEntry) (bn : String) (hbn : bn ≠ "") :
    skipDecision cache sample ts bn = true ↔
      (∃ last, cache = some last ∧
        ChannelClose (1 / 100000) sample.loc last.loc ∧
        ChannelClose (1 / 100000) sample.rot last.rot ∧
        ChannelClose (1 / 100000) sample.sca last.sca) ∧
      ∀ t ∈ ts, t.bone_name ≠ bn ∧ t.target_bone ≠ bn := by
  have hcontains : (triggerBones ts).contains bn = true ↔ bn ∈ triggerBones ts :=
    List.elem_iff
  unfold skipDecision
  rw [Bool.and_eq_true]
  constructor
  · rintro ⟨h1, h2⟩
    cases cache with
    | none => exact absurd h1 (by simp)
    | some last =>
      rw [samples_equal_iff] at h1
      refine ⟨⟨last, rfl, h1.1, h1.2.1, h1.2.2⟩, ?_⟩
      intro t ht
      rw [Bool.not_eq_true', ← Bool.not_eq_true] at h2
      have hnot : ¬bn ∈ triggerBones ts := fun hm => h2 (hcontains.mpr hm)
      constructor <;> intro heq <;>
        exact hnot ((mem_triggerBones_iff ts bn hbn).mpr
          ⟨t, ht, by simp [heq]⟩)
  · rintro ⟨⟨last, hc, hl, hr, hs⟩, hts⟩
    subst hc
    refine ⟨(samples_equal_iff _ _ _).mpr ⟨hl, hr, hs⟩, ?_⟩
    rw [Bool.not_eq_true', ← Bool.not_eq_true]
    intro hcon
    rcases (mem_triggerBones_iff ts bn hbn).mp (hcontains.mp hcon)
      with ⟨t, ht, h | h⟩
    · exact (hts t ht).1 h
    · exact (hts t ht).2 h

/-- Witness for C6 at a concrete input: an unchanged fully-defined sample for
a bone referenced by no trigger is skipped. -/
theorem C6_skip_iff_witness :
    skipDecision (some ⟨some [0], some [0], some [0]⟩)
        ⟨some [0], some [0], some [0]⟩ [] "B" = true :=
  (C6_skip_iff (some ⟨some [0], some [0], some [0]⟩)
      ⟨some [0], some [0], some [0]⟩ [] "B" (by decide)).mpr
    ⟨⟨⟨some [0], some [0], some [0]⟩, rfl,
      ⟨[0], [0], rfl, rfl, rfl, by norm_num [List.zip]⟩,
      ⟨[0], [0], rfl, rfl, rfl, by norm_num [List.zip]⟩,
      ⟨[0], [0], rfl, rfl, rfl, by norm_num [List.zip]⟩⟩,
      by simp⟩

end PSD
